import Mathlib

/-!
Shallow embedding of the News-Research-Tool repository
(`news_analyzer.py`, `app.py`, `ui_components.py`, `config.py`)
and verification of the frozen claims about it.

Python dictionaries that carry article data are embedded as structures with
`Option String` fields: `none` models an absent key, `some s` a present
string value.  Python string truthiness (`not article.get('title')`) is the
`truthy` test below.  Python dicts used as mutable maps (the source-count
dictionary) are embedded as insertion-ordered association lists.
-/

/-- Python truthiness of `d.get(key)` for a string-valued key: the value is
truthy when the key is present and the string is non-empty. -/
def truthy : Option String → Bool
  | none => false
  | some s => s != ""

/-! Character-level models of the Python string operations used by the
code (`str.strip`, `str.lower`, single-character `str.replace`, digit
parsing).  They are defined structurally on the character list. -/

/-- The characters Python `str.strip()` treats as whitespace: the Unicode
whitespace property (tab through CR, the C1 separators, NBSP, the various
Unicode spaces), wider than Lean's `Char.isWhitespace`. -/
def pyIsSpace (c : Char) : Bool :=
  let n := c.toNat
  n == 32 || (9 ≤ n && n ≤ 13) || (28 ≤ n && n ≤ 31) || n == 0x85 || n == 0xA0 ||
  n == 0x1680 || (0x2000 ≤ n && n ≤ 0x200A) || n == 0x2028 || n == 0x2029 ||
  n == 0x202F || n == 0x205F || n == 0x3000

/-- Python `str.strip()`: drop leading and trailing whitespace. -/
def pyStrip (s : String) : String :=
  ⟨((s.toList.dropWhile pyIsSpace).reverse.dropWhile pyIsSpace).reverse⟩

/-- Python `str.lower()`. -/
def pyLower (s : String) : String :=
  ⟨s.toList.map Char.toLower⟩

/-- Python `s.replace(c, r)` for a single-character pattern. -/
def pyReplaceChar (s : String) (c r : Char) : String :=
  ⟨s.toList.map (fun x => if x = c then r else x)⟩

/-- Python `s.replace(c, '')` for a single-character pattern: delete every
occurrence. -/
def pyDeleteChar (s : String) (c : Char) : String :=
  ⟨s.toList.filter (fun x => x != c)⟩

/-- An article record as returned by the news API.  `source_name` is the
resolved `article.get('source', {}).get('name', ...)` access: `none` when
either the `source` dict or its `name` key is missing. -/
structure Article where
  title : Option String
  description : Option String
  source_name : Option String
  publishedAt : Option String
  url : Option String
  urlToImage : Option String
  author : Option String
deriving DecidableEq, Repr

/-- Warning text appended for an article (0-based position `i`) with neither
title nor description: `f"Article {i+1}: Missing title and description"`. -/
def missingMsg (i : Nat) : String :=
  "Article " ++ toString (i + 1) ++ ": Missing title and description"

/-- Warning text appended for an article without a source name. -/
def unknownSourceMsg (i : Nat) : String :=
  "Article " ++ toString (i + 1) ++ ": Unknown source"

/-- An article is kept by `validate_articles` when its title or its
description is present and non-empty. -/
def keepArticle (a : Article) : Bool :=
  truthy a.title || truthy a.description

/-- Loop of `NewsProcessor.validate_articles`, carrying the enumeration
index `i`. -/
def validateAux : Nat → List Article → List Article × List String
  | _, [] => ([], [])
  | i, a :: rest =>
    let r := validateAux (i + 1) rest
    if !truthy a.title && !truthy a.description then
      (r.1, missingMsg i :: r.2)
    else if !truthy a.source_name then
      (a :: r.1, unknownSourceMsg i :: r.2)
    else
      (a :: r.1, r.2)

/-- `NewsProcessor.validate_articles` (news_analyzer.py lines 176-192). -/
def validate_articles (articles : List Article) : List Article × List String :=
  validateAux 0 articles

/-- A display record as built by `format_article_for_display`. -/
structure DisplayArticle where
  index : Nat
  title : String
  description : String
  source : String
  published_at : String
  url : String
  url_to_image : String
  author : String
deriving DecidableEq, Repr

/-- `NewsProcessor.format_article_for_display` (news_analyzer.py lines
162-174).  `published_at` is `article.get('publishedAt', 'Unknown
date')[:19].replace('T', ' ')`. -/
def format_article_for_display (article : Article) (index : Nat) : DisplayArticle :=
  { index := index
    title := article.title.getD "No title available"
    description := article.description.getD "No description available"
    source := article.source_name.getD "Unknown Source"
    published_at := pyReplaceChar ((article.publishedAt.getD "Unknown date").take 19) 'T' ' ' 
    url := article.url.getD ""
    url_to_image := article.urlToImage.getD ""
    author := article.author.getD "Unknown author" }

/-! ### Python dict as an insertion-ordered association list (source counts) -/

/-- Lookup of `d.get(k)` in a `str -> int` dict embedded as an association
list (first match wins; keys are unique in every dict the code builds). -/
def pyGet? : List (String × Nat) → String → Option Nat
  | [], _ => none
  | p :: rest, k => if p.1 == k then some p.2 else pyGet? rest k

/-- Lookup with default, `d.get(k, v)`. -/
def pyGetD (d : List (String × Nat)) (k : String) (v : Nat) : Nat :=
  (pyGet? d k).getD v

/-- Assignment `d[k] = v`: update in place when the key exists (Python dicts
keep the original insertion position), append otherwise. -/
def pySet : List (String × Nat) → String → Nat → List (String × Nat)
  | [], k, v => [(k, v)]
  | p :: rest, k, v => if p.1 == k then (k, v) :: rest else p :: pySet rest k v

/-! ### Dates: `strftime`/`strptime` with format `%Y-%m-%d` -/

/-- Gregorian leap-year test, as `datetime` uses. -/
def isLeap (y : Nat) : Bool :=
  y % 4 == 0 && (y % 100 != 0 || y % 400 == 0)

/-- Number of days in a month (1-12). -/
def daysInMonth (y m : Nat) : Nat :=
  if m == 2 then (if isLeap y then 29 else 28)
  else if m == 4 || m == 6 || m == 9 || m == 11 then 30
  else 31

/-- Split a character list at every `'-'` (Python `s.split('-')`). -/
def splitDash : List Char → List (List Char)
  | [] => [[]]
  | c :: rest =>
    match splitDash rest with
    | [] => [[c]]
    | g :: gs => if c = '-' then [] :: g :: gs else (c :: g) :: gs

/-- The numeric value of a digit run. -/
def digitsVal (l : List Char) : Nat :=
  l.foldl (fun n c => n * 10 + (c.toNat - 48)) 0

/-- Parse a non-empty all-digit character run. -/
def digitsToNat? (l : List Char) : Option Nat :=
  if l ≠ [] ∧ l.all Char.isDigit then some (digitsVal l) else none

/-- Parse a `%Y-%m-%d` date string the way CPython `datetime.strptime`
does: three dash-separated digit fields, the year exactly four digits
(`%Y`), month and day one or two digits (`%m`, `%d`), with `datetime`
value validation (year >= 1, month 1-12, day within the month).  Returns
`(year, month, day)`. -/
def parseDate10 (s : String) : Option (Nat × Nat × Nat) :=
  match splitDash s.toList with
  | [ys, ms, ds] =>
    match digitsToNat? ys, digitsToNat? ms, digitsToNat? ds with
    | some y, some m, some d =>
      if ys.length = 4 ∧ ms.length ≤ 2 ∧ ds.length ≤ 2 ∧
          1 ≤ y ∧ 1 ≤ m ∧ m ≤ 12 ∧ 1 ≤ d ∧ d ≤ daysInMonth y m then
        some (y, m, d)
      else none
    | _, _, _ => none
  | _ => none

/-- Day number of a civil date (days since an arbitrary fixed epoch), so
that subtracting two day numbers gives the `timedelta.days` between the two
dates.  Standard days-from-civil computation; all intermediate values are
non-negative. -/
def daysFromCivil (ymd : Nat × Nat × Nat) : Int :=
  let y : Int := (ymd.1 : Int) - (if ymd.2.1 ≤ 2 then 1 else 0)
  let era : Int := y / 400
  let yoe : Int := y - era * 400
  let mp : Int := ((ymd.2.1 : Int) + 9) % 12
  let doy : Int := (153 * mp + 2) / 5 + (ymd.2.2 : Int) - 1
  era * 146097 + yoe * 365 + yoe / 4 - yoe / 100 + doy

/-! ### `NewsProcessor.extract_article_metadata` -/

/-- The `date_range` sub-dict of the metadata. -/
structure DateRange where
  earliest : String
  latest : String
  span_days : Int
deriving DecidableEq, Repr

/-- The metadata dict built by `extract_article_metadata` for a non-empty
article list.  `sources_list` is `list(set(sources))`; Python's set order is
unspecified, the embedding uses `dedup` (only its length is ever used). -/
structure Metadata where
  total_articles : Nat
  unique_sources : Nat
  source_distribution : List (String × Nat)
  date_range : Option DateRange
  sources_list : List String
deriving DecidableEq, Repr

/-- Result of `extract_article_metadata`: the empty input returns the empty
dict (`result none`); an unparsable publish date makes `strptime` raise
(`raises`); otherwise a full metadata dict is returned. -/
inductive ExtractResult
  | raises
  | result : Option Metadata → ExtractResult
deriving DecidableEq, Repr

/-- The source-name list `[article.get('source', {}).get('name', 'Unknown')
for article in articles]`. -/
def sourcesOf (articles : List Article) : List String :=
  articles.map (fun a => a.source_name.getD "Unknown")

/-- The date list `[article.get('publishedAt', '')[:10] for article in
articles if article.get('publishedAt')]`. -/
def datesOf (articles : List Article) : List String :=
  articles.filterMap (fun a =>
    if truthy a.publishedAt then some ((a.publishedAt.getD "").take 10) else none)

/-- The source-count dict built by the
`source_counts[source] = source_counts.get(source, 0) + 1` loop. -/
def buildCounts (sources : List String) : List (String × Nat) :=
  sources.foldl (fun d s => pySet d s (pyGetD d s 0 + 1)) []

/-- `NewsProcessor.extract_article_metadata` (news_analyzer.py lines
127-160). -/
def extract_article_metadata (articles : List Article) : ExtractResult :=
  match articles with
  | [] => .result none
  | _ =>
    let sources := sourcesOf articles
    let source_counts := buildCounts sources
    match datesOf articles with
    | [] =>
      .result (some
        { total_articles := articles.length
          unique_sources := sources.dedup.length
          source_distribution := source_counts
          date_range := none
          sources_list := sources.dedup })
    | d :: ds =>
      let latest := ds.foldl max d
      let earliest := ds.foldl min d
      match parseDate10 latest, parseDate10 earliest with
      | some dl, some de =>
        .result (some
          { total_articles := articles.length
            unique_sources := sources.dedup.length
            source_distribution := source_counts
            date_range := some
              { earliest := earliest
                latest := latest
                span_days := daysFromCivil dl - daysFromCivil de }
            sources_list := sources.dedup })
      | _, _ => .raises

/-! ### JSON values (bodies of API responses and the JSON export) -/

/-- A JSON value.  Objects and arrays keep insertion order, as Python dicts
and `json.dumps` do. -/
inductive Json where
  | str (s : String)
  | num (n : Int)
  | bool (b : Bool)
  | null
  | arr (elems : List Json)
  | obj (fields : List (String × Json))

/-! ### The two HTTP clients (news_analyzer.py) -/

/-- Exceptions that the `requests` call or the response processing can
raise inside the `try` block: `requests.exceptions.Timeout`,
`requests.exceptions.RequestException`, or any other `Exception`. -/
inductive PyExc
  | timeout
  | requestExc (msg : String)
  | otherExc (msg : String)
deriving DecidableEq, Repr

/-- Outcome of the single `requests.get` call in `fetch_articles`: a
response with a status code, an optional parsed JSON body (`none` when
`response.json()` would raise) and the raw text, or one of the exceptions. -/
inductive HttpOutcome where
  | success (status : Nat) (jsonBody : Option Json) (text : String)
  | timeout
  | reqExc (msg : String)
  | otherExc (msg : String)

/-- Return value of `fetch_articles`: the parsed JSON dict on success, or
the `{"error": msg}` dict on any failure. -/
inductive FetchResult where
  | json (j : Json)
  | errorDict (msg : String)

/-- Body of the `try` block of `NewsAPIClient.fetch_articles` given the
outcome of the HTTP call: raises (`Except.error`) exactly when the call or
`response.json()` raises. -/
def fetch_articles_body (o : HttpOutcome) : Except PyExc FetchResult :=
  match o with
  | .timeout => .error .timeout
  | .reqExc m => .error (.requestExc m)
  | .otherExc m => .error (.otherExc m)
  | .success status body text =>
    if status = 200 then
      match body with
      | some j => .ok (.json j)
      | none => .error (.otherExc "Expecting value: line 1 column 1 (char 0)")
    else
      .ok (.errorDict ("NewsAPI Error: " ++ toString status ++ " - " ++ text))

/-- `NewsAPIClient.fetch_articles` (news_analyzer.py lines 62-99): the
`try` body wrapped in the three `except` handlers, each of which returns an
error dict. -/
def fetch_articles (o : HttpOutcome) : FetchResult :=
  match fetch_articles_body o with
  | .ok r => r
  | .error .timeout => .errorDict "Request timed out. Please try again."
  | .error (.requestExc m) => .errorDict ("Network issue: " ++ m)
  | .error (.otherExc m) => .errorDict ("Error fetching news: " ++ m)

/-- Default resolution `x = x or default` for an int-valued argument:
`None` and `0` are falsy. -/
def orDefaultInt (x : Option Int) (d : Int) : Int :=
  match x with
  | none => d
  | some n => if n = 0 then d else n

/-- Default resolution `x = x or default` for a string argument. -/
def orDefaultStr (x : Option String) (d : String) : String :=
  match x with
  | none => d
  | some s => if s = "" then d else s

/-- `NEWSAPI_CONFIG` entries used by `fetch_articles` (config.py). -/
def NEWSAPI_CONFIG_default_days_back : Int := 7

def NEWSAPI_CONFIG_default_page_size : Int := 15

def NEWSAPI_CONFIG_default_sort : String := "relevancy"

def NEWSAPI_CONFIG_language : String := "en"

/-- The outbound request parameters of `fetch_articles`.  `fromDate` is the
day number of `datetime.now() - timedelta(days=days_back)`; the current day
number is an explicit input. -/
structure NewsParams where
  q : String
  apiKey : String
  language : String
  sortBy : String
  pageSize : Int
  fromDate : Int
deriving DecidableEq, Repr

/-- Construction of the `params` dict in `fetch_articles` (news_analyzer.py
lines 70-85), including the `min(page_size, 100)` clamp. -/
def fetch_params (query api_key : String) (days_back page_size : Option Int)
    (sort_by language : Option String) (nowDay : Int) : NewsParams :=
  let days_back := orDefaultInt days_back NEWSAPI_CONFIG_default_days_back
  let page_size := orDefaultInt page_size NEWSAPI_CONFIG_default_page_size
  let sort_by := orDefaultStr sort_by NEWSAPI_CONFIG_default_sort
  let language := orDefaultStr language NEWSAPI_CONFIG_language
  { q := query
    apiKey := api_key
    language := language
    sortBy := sort_by
    pageSize := min page_size 100
    fromDate := nowDay - days_back }

/-- Outcome of the single `requests.post` call in `generate_summary`.
`choices` is the list of `choice['message']['content']` strings of the
parsed body (`none` when `response.json()` would raise). -/
inductive GroqOutcome where
  | success (status : Nat) (choices : Option (List String)) (text : String)
  | timeout
  | reqExc (msg : String)
  | otherExc (msg : String)

/-- Body of the `try` block of `GroqAnalyzer.generate_summary`: on a 200
response it extracts `result['choices'][0]['message']['content']` (an empty
`choices` list raises `IndexError`, an unparsable body raises in
`response.json()`); a non-200 response returns the `f"Error: ..."` string. -/
def generate_summary_body (o : GroqOutcome) : Except PyExc String :=
  match o with
  | .timeout => .error .timeout
  | .reqExc m => .error (.requestExc m)
  | .otherExc m => .error (.otherExc m)
  | .success status choices text =>
    if status = 200 then
      match choices with
      | some (c :: _) => .ok c
      | some [] => .error (.otherExc "list index out of range")
      | none => .error (.otherExc "Expecting value: line 1 column 1 (char 0)")
    else
      .ok ("Error: " ++ toString status ++ " - " ++ text)

/-- `GroqAnalyzer.generate_summary` (news_analyzer.py lines 17-52): the
`try` body wrapped in the three `except` handlers. -/
def generate_summary (o : GroqOutcome) : String :=
  match generate_summary_body o with
  | .ok r => r
  | .error .timeout => "Error: Request timed out. Please try again."
  | .error (.requestExc m) => "Error: Network issue - " ++ m
  | .error (.otherExc m) => "Error generating summary: " ++ m

/-- An HTTP primitive instrumented with a request counter: every evaluation
of the single call site in either client increments the counter once,
whether the attempt succeeds or raises. -/
def httpCall {α : Type} (o : α) : StateM Nat α :=
  fun n => (o, n + 1)

/-- One full invocation of `fetch_articles`, counting outbound GET
requests: the code has exactly one `requests.get` call site and no loop or
retry around it. -/
def fetch_articles_run (o : HttpOutcome) : FetchResult × Nat :=
  (do
    let resp ← httpCall o
    pure (fetch_articles resp)).run 0

/-- One full invocation of `generate_summary`, counting outbound POST
requests. -/
def generate_summary_run (o : GroqOutcome) : String × Nat :=
  (do
    let resp ← httpCall o
    pure (generate_summary resp)).run 0

/-! ### Search history (ui_components.py) -/

/-- An entry of the in-session search history, as built by
`add_to_search_history`. -/
structure HistEntry where
  query : String
  timestamp : String
  results_count : Int
  date : String
  time : String
deriving DecidableEq, Repr

/-- The ambient process state an invocation runs in: the four formatted
readings of the wall clock (`strftime` formats `'%Y-%m-%d %H:%M:%S'`,
`'%B %d, %Y at %H:%M'`, `'%b %d, %Y'`, `'%I:%M %p'`) and the session
search history. -/
structure Env where
  nowYmdHms : String
  nowLong : String
  nowDateShort : String
  nowTimeAmPm : String
  searchHistory : List HistEntry
deriving DecidableEq, Repr

/-- `add_to_search_history` (ui_components.py lines 25-50), acting on the
history list held in the session state.  Note the duplicate filter compares
against the raw `query` while the stored entry holds `query.strip()`. -/
def add_to_search_history (hist : List HistEntry) (query : String)
    (results_count : Int) (e : Env) : List HistEntry :=
  if query == "" || pyStrip query == "" then hist
  else
    let entry : HistEntry :=
      { query := pyStrip query
        timestamp := e.nowYmdHms
        results_count := results_count
        date := e.nowDateShort
        time := e.nowTimeAmPm }
    let filtered := hist.filter (fun h => pyLower h.query != pyLower query)
    (entry :: filtered).take 20

/-! ### Export formatters -/

/-- The `{'='*50}` separator line. -/
def eqBar : String := "".pushn '=' 50

/-- Rendering of `metadata.get('total_articles', 'N/A')`. -/
def metaTotalDisp : Option Metadata → String
  | none => "N/A"
  | some m => toString m.total_articles

/-- Rendering of `metadata.get('unique_sources', 'N/A')`. -/
def metaUniqueDisp : Option Metadata → String
  | none => "N/A"
  | some m => toString m.unique_sources

/-- Rendering of `metadata.get('date_range', {}).get('earliest', 'N/A')`. -/
def metaEarliestDisp : Option Metadata → String
  | some { date_range := some dr, .. } => dr.earliest
  | _ => "N/A"

/-- Rendering of `metadata.get('date_range', {}).get('latest', 'N/A')`. -/
def metaLatestDisp : Option Metadata → String
  | some { date_range := some dr, .. } => dr.latest
  | _ => "N/A"

/-- Rendering of `metadata.get('date_range', {}).get('span_days', 'N/A')`. -/
def metaSpanDisp : Option Metadata → String
  | some { date_range := some dr, .. } => toString dr.span_days
  | _ => "N/A"

/-- Stable insertion of an entry into a count-descending list: the entry
goes after every earlier entry with a strictly larger count and before
entries with an equal or smaller count (it came earlier in the input). -/
def insertDesc (x : String × Nat) : List (String × Nat) → List (String × Nat)
  | [] => [x]
  | y :: ys => if y.2 > x.2 then y :: insertDesc x ys else x :: y :: ys

/-- Stable sort, descending by count. -/
def pySortedDesc : List (String × Nat) → List (String × Nat)
  | [] => []
  | x :: xs => insertDesc x (pySortedDesc xs)

/-- `sorted(source_dist.items(), key=lambda x: x[1], reverse=True)`:
a stable sort, descending by count. -/
def sortedDist (metadata : Option Metadata) : List (String × Nat) :=
  pySortedDesc (match metadata with
    | none => []
    | some m => m.source_distribution)

/-- `create_download_content` (news_analyzer.py lines 196-238).  The
`timestamp` interpolated into the report is `datetime.now()` formatted at
call time, taken here from the ambient environment. -/
def create_download_content (summary query : String) (metadata : Option Metadata)
    (e : Env) : String :=
  let timestamp := e.nowYmdHms
  let content :=
    "\nNEWS RESEARCH REPORT\nGenerated: " ++ timestamp ++ "\nQuery: " ++ query
    ++ "\n\n" ++ eqBar ++ "\nEXECUTIVE SUMMARY\n" ++ eqBar ++ "\n\n" ++ summary
    ++ "\n\n" ++ eqBar ++ "\nRESEARCH METADATA  \n" ++ eqBar ++ "\n\n"
    ++ "Total Articles Analyzed: " ++ metaTotalDisp metadata
    ++ "\nUnique News Sources: " ++ metaUniqueDisp metadata
    ++ "\nDate Range: " ++ metaEarliestDisp metadata ++ " to " ++ metaLatestDisp metadata
    ++ "\n\nSources Distribution:\n"
  let content := (sortedDist metadata).foldl
    (fun acc p => acc ++ "- " ++ p.1 ++ ": " ++ toString p.2 ++ " articles\n") content
  content
    ++ "\n" ++ eqBar ++ "\nDISCLAIMER\n" ++ eqBar ++ "\n\n"
    ++ "This report is generated by AI and should not be considered as financial advice.\n"
    ++ "Always consult with qualified financial advisors before making investment decisions.\n"
    ++ "The information provided is based on publicly available news sources and may not be complete or accurate.\n\n"
    ++ "Report generated by News Research Tool - Powered by Groq AI & NewsAPI\n"

/-- The template literal of `create_pdf_content` (app.py lines 461-540).
In the source it is a plain (not `f`-prefixed) triple-quoted string, so the
`\x7bquery\x7d`-style placeholders and the doubled braces are literal
text, not interpolations. -/
def pdf_template : String :=
  "\n    <!DOCTYPE html>\n    <html>\n    <head>\n        <title>Market Research Report: \x7bquery\x7d"
  ++ "</title>\n        <style>\n            body \x7b\x7b font-family: Arial, sans-serif; line-height"
  ++ ": 1.6; margin: 40px; \x7d\x7d\n            .header \x7b\x7b background: linear-gradient(135deg, "
  ++ "#667eea 0%, #764ba2 100%); \n                      color: white; padding: 2rem; text-align: cent"
  ++ "er; border-radius: 10px; \x7d\x7d\n            .content \x7b\x7b background: #f9f9f9; padding: 2"
  ++ "rem; margin-top: 2rem; border-radius: 10px; \x7d\x7d\n            .article \x7b\x7b border-botto"
  ++ "m: 1px solid #ddd; padding: 1rem 0; \x7d\x7d\n            .metrics \x7b\x7b display: flex; justi"
  ++ "fy-content: space-around; margin: 2rem 0; \x7d\x7d\n            .metric \x7b\x7b text-align: cen"
  ++ "ter; background: #e3f2fd; padding: 1rem; border-radius: 8px; \x7d\x7d\n            h1, h2, h3 \x7b"
  ++ "\x7b color: #333; \x7d\x7d\n            .footer \x7b\x7b text-align: center; margin-top: 3rem; c"
  ++ "olor: #666; \x7d\x7d\n        </style>\n    </head>\n    <body>\n        <div class=\"header\">\n"
  ++ "            <h1>📊 Market Research Report</h1>\n            <h2>Query: \"\x7bquery\x7d\"</h2>\n  "
  ++ "          <p>Generated: \x7btimestamp\x7d</p>\n        </div>\n        \n        <div class=\"co"
  ++ "ntent\">\n            <h2>🤖 AI Analysis Summary</h2>\n            <div>\x7bsummary.replace(\x27\n"
  ++ "\x27, \x27<br>\x27)\x7d</div>\n            \n            <div class=\"metrics\">\n              "
  ++ "  <div class=\"metric\">\n                    <h3>\x7bmetadata.get(\x27total_articles\x27, \x27N"
  ++ "/A\x27)\x7d</h3>\n                    <p>Articles</p>\n                </div>\n                <"
  ++ "div class=\"metric\">\n                    <h3>\x7bmetadata.get(\x27unique_sources\x27, \x27N/A\x27"
  ++ ")\x7d</h3>\n                    <p>Sources</p>\n                </div>\n                <div cla"
  ++ "ss=\"metric\">\n                    <h3>\x7bmetadata.get(\x27date_range\x27, \x7b\x7d).get(\x27s"
  ++ "pan_days\x27, \x27N/A\x27)\x7d days</h3>\n                    <p>Time Span</p>\n                "
  ++ "</div>\n            </div>\n            \n            <h2>📰 Key Articles</h2>\n            \x7b\x27"
  ++ "\x27.join([f\x27\x27\x27\n            <div class=\"article\">\n                <h3>\x7barticle.g"
  ++ "et(\x27title\x27, \x27No Title\x27)\x7d</h3>\n                <p><strong>Source:</strong> \x7bar"
  ++ "ticle.get(\x27source\x27, \x27Unknown\x27)\x7d | \n                   <strong>Date:</strong> \x7b"
  ++ "article.get(\x27published_at\x27, \x27Unknown\x27)\x7d</p>\n                <p>\x7barticle.get(\x27"
  ++ "description\x27, \x27No description available\x27)\x7d</p>\n                \x7bf\x27<p><a href="
  ++ "\"\x7barticle.get(\"url\", \"\")\x7d\" target=\"_blank\">Read Full Article</a></p>\x27 if articl"
  ++ "e.get(\x27url\x27) else \x27\x27\x7d\n            </div>\n            \x27\x27\x27 for article i"
  ++ "n articles])\x7d\n        </div>\n        \n        <div class=\"footer\">\n            <p>Gener"
  ++ "ated by AI News Research Tool</p>\n            <p>Powered by Groq AI & NewsAPI</p>\n        </di"
  ++ "v>\n    </body>\n    </html>\n    "

/-- `create_pdf_content` (app.py lines 456-542): because the template is
not an f-string, the function returns the template verbatim; the computed
`timestamp` and all four arguments are unused. -/
def create_pdf_content (summary query : String) (metadata : Option Metadata)
    (articles : List DisplayArticle) (e : Env) : String :=
  pdf_template

/-- Minimal-quoting rule of `csv.writer`: a field is quoted when it
contains a delimiter, a quote or a line break, with quotes doubled. -/
def csvQuote (s : String) : String :=
  if s.toList.any (fun c => c == ',' || c == '"' || c == '\n' || c == '\r') then
    "\"" ++ s.replace "\"" "\"\"" ++ "\""
  else s

/-- One `writer.writerow(fields)` call: comma-separated fields followed by
the default `\r\n` line terminator. -/
def csvRow (fields : List String) : String :=
  String.intercalate "," (fields.map csvQuote) ++ "\r\n"

/-- `create_csv_content` (app.py lines 526-565), applied to the formatted
display articles stored in the analysis result. -/
def create_csv_content (articles : List DisplayArticle) (metadata : Option Metadata)
    (e : Env) : String :=
  let header := csvRow ["Article_Number", "Title", "Source", "Author",
    "Published_Date", "Description", "URL"]
  let body := articles.enum.foldl (fun acc p =>
    acc ++ csvRow [toString (p.1 + 1),
      pyDeleteChar (pyReplaceChar p.2.title '\n' ' ') '\r',
      p.2.source,
      p.2.author,
      p.2.published_at,
      pyDeleteChar (pyReplaceChar p.2.description '\n' ' ') '\r',
      p.2.url]) header
  body ++ csvRow [] ++ csvRow ["Summary Statistics"]
    ++ csvRow ["Total Articles", toString articles.length]
    ++ csvRow ["Unique Sources", metaUniqueDisp metadata]
    ++ csvRow ["Date Range (days)", metaSpanDisp metadata]

/-- `create_email_template` (app.py lines 567-599).  The interpolated
`timestamp` is again `datetime.now()` formatted at call time. -/
def create_email_template (summary query : String) (metadata : Option Metadata)
    (e : Env) : String :=
  "Dear Recipient,\n\nPlease find below the market research analysis for \"" ++ query
    ++ "\" generated on " ++ e.nowLong ++ ".\n\nEXECUTIVE SUMMARY:\n"
    ++ summary.take 500 ++ "...\n\nKEY METRICS:\n"
    ++ "\u2022 Articles Analyzed: " ++ metaTotalDisp metadata ++ "\n"
    ++ "\u2022 News Sources: " ++ metaUniqueDisp metadata ++ "\n"
    ++ "\u2022 Time Period: " ++ metaSpanDisp metadata ++ " days\n\n"
    ++ "This analysis was generated using advanced AI technology and multiple news sources to provide comprehensive market insights.\n\n"
    ++ "For the complete detailed report with all articles and charts, please refer to the attached files or contact me for the full analysis.\n\n"
    ++ "DISCLAIMER: This report is for informational purposes only and should not be considered as financial advice. Always consult with qualified financial advisors before making investment decisions.\n\n"
    ++ "Best regards,\nAI News Research Tool\nPowered by Groq AI & NewsAPI\n\n---\n"
    ++ "Generated automatically by the AI News Research Tool\nVisit our platform for real-time market analysis\n"

/-- A lowercase hexadecimal digit. -/
def hexDigit (n : Nat) : Char :=
  if n < 10 then Char.ofNat (48 + n) else Char.ofNat (97 + (n - 10))

/-- A `\uXXXX` escape with four lowercase hex digits. -/
def uEscape (n : Nat) : String :=
  "\\u" ++ String.mk [hexDigit ((n / 4096) % 16), hexDigit ((n / 256) % 16),
    hexDigit ((n / 16) % 16), hexDigit (n % 16)]

/-- Escaping of one character as `json.dumps` does with its default
`ensure_ascii=True`: the named escapes, `\uXXXX` for the remaining
control characters and for everything outside printable ASCII, with a
surrogate pair beyond the BMP. -/
def jsonEscapeChar (c : Char) : String :=
  if c == '"' then "\\\""
  else if c == '\\' then "\\\\"
  else if c == '\n' then "\\n"
  else if c == '\r' then "\\r"
  else if c == '\t' then "\\t"
  else if c.toNat == 8 then "\\b"
  else if c.toNat == 12 then "\\f"
  else if c.toNat < 32 then uEscape c.toNat
  else if c.toNat < 127 then String.singleton c
  else if c.toNat ≤ 0xFFFF then uEscape c.toNat
  else
    uEscape (0xD800 + (c.toNat - 0x10000) / 0x400) ++
      uEscape (0xDC00 + (c.toNat - 0x10000) % 0x400)

/-- String escaping of `json.dumps(..., ensure_ascii=True)`. -/
def jsonEscape (s : String) : String :=
  s.foldl (fun acc c => acc ++ jsonEscapeChar c) ""

/-- A run of spaces, for `json.dumps(..., indent=2)` indentation. -/
def spacesOf (n : Nat) : String := "".pushn ' ' n

/-- Layout of `json.dumps(value, indent=2)`. -/
def Json.dump (lvl : Nat) : Json → String
  | .str s => "\"" ++ jsonEscape s ++ "\""
  | .num n => toString n
  | .bool b => cond b "true" "false"
  | .null => "null"
  | .arr [] => "[]"
  | .arr (x :: xs) =>
    "[\n" ++ String.intercalate ",\n"
      ((x :: xs).attach.map (fun el => spacesOf (lvl + 2) ++ Json.dump (lvl + 2) el.1))
      ++ "\n" ++ spacesOf lvl ++ "]"
  | .obj [] => "\x7b\x7d"
  | .obj (f :: fs) =>
    "\x7b\n" ++ String.intercalate ",\n"
      ((f :: fs).attach.map (fun el =>
        spacesOf (lvl + 2) ++ "\"" ++ jsonEscape el.1.1 ++ "\": "
          ++ Json.dump (lvl + 2) el.1.2))
      ++ "\n" ++ spacesOf lvl ++ "\x7d"
termination_by j => sizeOf j
decreasing_by
  · have h := List.sizeOf_lt_of_mem el.2
    simp only [Json.arr.sizeOf_spec]
    omega
  · obtain ⟨⟨k, v⟩, hmem⟩ := el
    have h := List.sizeOf_lt_of_mem hmem
    simp only [Prod.mk.sizeOf_spec] at h
    simp only [Json.obj.sizeOf_spec]
    omega

/-- A display article as serialized into the JSON export (dict insertion
order of `format_article_for_display`). -/
def displayToJson (d : DisplayArticle) : Json :=
  .obj [("index", .num d.index), ("title", .str d.title),
    ("description", .str d.description), ("source", .str d.source),
    ("published_at", .str d.published_at), ("url", .str d.url),
    ("url_to_image", .str d.url_to_image), ("author", .str d.author)]

/-- The `date_range` sub-dict as serialized into the JSON export. -/
def dateRangeToJson : Option DateRange → Json
  | none => .obj []
  | some dr => .obj [("earliest", .str dr.earliest), ("latest", .str dr.latest),
      ("span_days", .num dr.span_days)]

/-- The metadata dict as serialized into the JSON export. -/
def metadataToJson : Option Metadata → Json
  | none => .obj []
  | some m => .obj [("total_articles", .num m.total_articles),
      ("unique_sources", .num m.unique_sources),
      ("source_distribution", .obj (m.source_distribution.map (fun p => (p.1, Json.num p.2)))),
      ("date_range", dateRangeToJson m.date_range),
      ("sources_list", .arr (m.sources_list.map Json.str))]

/-- The in-memory analysis result stored in the session state
(`st.session_state.current_analysis`), as far as the exports read it. -/
structure AnalysisData where
  query : String
  summary : String
  articles : List DisplayArticle
  metadata : Option Metadata
  timestamp_iso : String
  config : List (String × Json)

/-- The JSON export (app.py lines 398-420): `json.dumps(json_data,
indent=2, default=str)` of the stored analysis result, with the two API
keys filtered out of the config.  The interpolated timestamp is the stored
`analysis_data['timestamp']`, not the current time. -/
def json_export (a : AnalysisData) (e : Env) : String :=
  Json.dump 0 (.obj
    [("query", .str a.query), ("summary", .str a.summary),
     ("articles", .arr (a.articles.map displayToJson)),
     ("metadata", metadataToJson a.metadata),
     ("timestamp", .str a.timestamp_iso),
     ("config", .obj (a.config.filter
        (fun p => p.1 != "groq_api_key" && p.1 != "news_api_key")))])

/-- The no-case-duplicate invariant of the search history: no two entries
have queries equal up to letter case. -/
def caseDistinct (l : List HistEntry) : Prop :=
  l.Pairwise (fun a b => pyLower a.query ≠ pyLower b.query)

/-! ### Concrete sample values used to instantiate the theorems -/

/-- A fully populated sample article. -/
def exArticleFull : Article :=
  { title := some "Title A"
    description := some "Desc A"
    source_name := some "BBC"
    publishedAt := some "2024-03-05T12:00:00Z"
    url := some "http://a"
    urlToImage := some "http://img"
    author := some "Alice" }

/-- A sample article with no title and an empty description. -/
def exArticleEmpty : Article :=
  { title := none
    description := some ""
    source_name := some "BBC"
    publishedAt := none
    url := none
    urlToImage := none
    author := none }

/-- A sample article with a title but no description, source or image. -/
def exArticleB : Article :=
  { title := some "Title B"
    description := none
    source_name := none
    publishedAt := some "2024-02-28T01:02:03Z"
    url := none
    urlToImage := none
    author := none }

/-- A sample article list. -/
def exArticles : List Article := [exArticleFull, exArticleEmpty, exArticleB]

/-- A sample environment. -/
def exEnv1 : Env :=
  { nowYmdHms := "2024-01-01 00:00:00"
    nowLong := "January 01, 2024 at 00:00"
    nowDateShort := "Jan 01, 2024"
    nowTimeAmPm := "12:00 AM"
    searchHistory := [] }

/-- The same process state at a later clock reading. -/
def exEnv2 : Env :=
  { nowYmdHms := "2024-01-02 11:11:11"
    nowLong := "January 02, 2024 at 11:11"
    nowDateShort := "Jan 02, 2024"
    nowTimeAmPm := "11:11 AM"
    searchHistory := [] }

/-- The same clock reading as `exEnv1` but a different session history. -/
def exEnv3 : Env :=
  { nowYmdHms := "2024-01-01 00:00:00"
    nowLong := "January 01, 2024 at 00:00"
    nowDateShort := "Jan 01, 2024"
    nowTimeAmPm := "12:00 AM"
    searchHistory := [{ query := "other", timestamp := "x", results_count := 1,
                        date := "d", time := "t" }] }

/-- A sample search history holding the single stripped query "foo". -/
def exHist : List HistEntry :=
  [{ query := "foo", timestamp := "t0", results_count := 0, date := "d0", time := "h0" }]

/-- A sample stored analysis result. -/
def exAnalysis : AnalysisData :=
  { query := "q"
    summary := "s"
    articles := []
    metadata := none
    timestamp_iso := "2024-01-01T00:00:00"
    config := [("model_choice", Json.str "m"), ("groq_api_key", Json.str "secret")] }

/- Helper lemmas for `validate_articles`. -/

theorem validateAux_fst (i : Nat) (l : List Article) :
    (validateAux i l).1 = l.filter keepArticle := by
  induction l generalizing i with
  | nil => rfl
  | cons a rest ih =>
    simp only [validateAux, List.filter, keepArticle]
    by_cases ht : truthy a.title <;> by_cases hd : truthy a.description <;>
      by_cases hs : truthy a.source_name <;>
        simp [ht, hd, hs, ih]

theorem validateAux_warning (l : List Article) (i j : Nat) (h : j < l.length)
    (hk : keepArticle (l.get ⟨j, h⟩) = false) :
    missingMsg (i + j) ∈ (validateAux i l).2 := by
  induction l generalizing i j with
  | nil => simp at h
  | cons a rest ih =>
    cases j with
    | zero =>
      simp only [List.get] at hk
      have hk' : (!truthy a.title && !truthy a.description) = true := by
        simp only [keepArticle, Bool.or_eq_false_iff] at hk
        simp [hk.1, hk.2]
      simp [validateAux, hk']
    | succ j' =>
      have h' : j' < rest.length := by simpa using h
      have hk' : keepArticle (rest.get ⟨j', h'⟩) = false := by
        simpa using hk
      have hmem := ih (i + 1) j' h' hk'
      have harith : i + 1 + j' = i + (j' + 1) := by omega
      rw [harith] at hmem
      simp only [validateAux]
      by_cases hcond : (!truthy a.title && !truthy a.description) = true <;>
        by_cases hs : truthy a.source_name <;> simp [hcond, hs, hmem]

/- Helper lemmas for `buildCounts`. -/

theorem pyGet?_pySet_self (d : List (String × Nat)) (k : String) (v : Nat) :
    pyGet? (pySet d k v) k = some v := by
  induction d with
  | nil => simp [pySet, pyGet?]
  | cons p rest ih =>
    by_cases h : p.1 = k
    · simp [pySet, pyGet?, h]
    · simp [pySet, pyGet?, h, ih]

theorem pyGet?_pySet_ne (d : List (String × Nat)) (k k' : String) (v : Nat)
    (h : k' ≠ k) : pyGet? (pySet d k v) k' = pyGet? d k' := by
  induction d with
  | nil => simp [pySet, pyGet?, Ne.symm h]
  | cons p rest ih =>
    by_cases hp : p.1 = k
    · simp [pySet, pyGet?, hp, Ne.symm h]
    · simp [pySet, pyGet?, hp, ih]

theorem pyGetD_countLoop (l : List String) (d : List (String × Nat)) (s : String) :
    pyGetD (l.foldl (fun d s => pySet d s (pyGetD d s 0 + 1)) d) s 0
      = pyGetD d s 0 + l.count s := by
  induction l generalizing d with
  | nil => simp [List.count]
  | cons a t ih =>
    simp only [List.foldl]
    rw [ih]
    by_cases h : s = a
    · subst h
      simp [pyGetD, pyGet?_pySet_self, List.count_cons]
      try omega
    · have hne : s ≠ a := h
      simp [pyGetD, pyGet?_pySet_ne _ _ _ _ hne, List.count_cons, h]
      try omega

theorem pyGet?_isSome_countLoop (l : List String) (d : List (String × Nat)) (s : String) :
    (pyGet? (l.foldl (fun d s => pySet d s (pyGetD d s 0 + 1)) d) s).isSome
      = ((pyGet? d s).isSome || l.contains s) := by
  induction l generalizing d with
  | nil => simp
  | cons a t ih =>
    simp only [List.foldl]
    rw [ih]
    by_cases h : s = a
    · subst h
      simp [pyGet?_pySet_self]
    · have hne : s ≠ a := h
      simp [pyGet?_pySet_ne _ _ _ _ hne, List.contains_cons, hne]

/- Helper lemmas for the folded `min`/`max` of the date list. -/

theorem foldl_min_mem {α : Type} [LinearOrder α] (t : List α) (h : α) :
    t.foldl min h ∈ h :: t := by
  induction t generalizing h with
  | nil => simp
  | cons a t ih =>
    simp only [List.foldl]
    rcases List.mem_cons.1 (ih (min h a)) with h1 | h1
    · rcases min_choice h a with hc | hc <;> rw [hc] at h1 ⊢ <;> simp [h1]
    · simp [List.mem_cons_of_mem, h1]

theorem foldl_min_le {α : Type} [LinearOrder α] (t : List α) (h : α) :
    ∀ x ∈ h :: t, t.foldl min h ≤ x := by
  induction t generalizing h with
  | nil =>
    intro x hx
    simp only [List.mem_singleton] at hx
    simp [hx]
  | cons a t ih =>
    intro x hx
    simp only [List.foldl]
    rcases List.mem_cons.1 hx with hxe | hx2
    · rw [hxe]
      exact le_trans (ih (min h a) _ (List.mem_cons_self _ _)) (min_le_left _ _)
    · rcases List.mem_cons.1 hx2 with hxe | hx3
      · rw [hxe]
        exact le_trans (ih (min h a) _ (List.mem_cons_self _ _)) (min_le_right _ _)
      · exact ih (min h a) x (List.mem_cons_of_mem _ hx3)

theorem foldl_max_mem {α : Type} [LinearOrder α] (t : List α) (h : α) :
    t.foldl max h ∈ h :: t := by
  induction t generalizing h with
  | nil => simp
  | cons a t ih =>
    simp only [List.foldl]
    rcases List.mem_cons.1 (ih (max h a)) with h1 | h1
    · rcases max_choice h a with hc | hc <;> rw [hc] at h1 ⊢ <;> simp [h1]
    · simp [List.mem_cons_of_mem, h1]

theorem foldl_le_max {α : Type} [LinearOrder α] (t : List α) (h : α) :
    ∀ x ∈ h :: t, x ≤ t.foldl max h := by
  induction t generalizing h with
  | nil =>
    intro x hx
    simp only [List.mem_singleton] at hx
    simp [hx]
  | cons a t ih =>
    intro x hx
    simp only [List.foldl]
    rcases List.mem_cons.1 hx with hxe | hx2
    · rw [hxe]
      exact le_trans (le_max_left _ _) (ih (max h a) _ (List.mem_cons_self _ _))
    · rcases List.mem_cons.1 hx2 with hxe | hx3
      · rw [hxe]
        exact le_trans (le_max_right _ _) (ih (max h a) _ (List.mem_cons_self _ _))
      · exact ih (max h a) x (List.mem_cons_of_mem _ hx3)

/- String concatenation is associative (used to show the error strings of
`generate_summary` start with "Error"). -/

theorem strAppend_assoc (a b c : String) : (a ++ b) ++ c = a ++ (b ++ c) := by
  rcases a with ⟨la⟩
  rcases b with ⟨lb⟩
  rcases c with ⟨lc⟩
  show String.mk ((la ++ lb) ++ lc) = String.mk (la ++ (lb ++ lc))
  rw [List.append_assoc]

theorem strCancelLeft (a b c : String) (h : a ++ b = a ++ c) : b = c := by
  rcases a with ⟨la⟩
  rcases b with ⟨lb⟩
  rcases c with ⟨lc⟩
  have hd : la ++ lb = la ++ lc := congrArg String.data h
  exact congrArg String.mk (List.append_cancel_left hd)

theorem strCancelRight (a b c : String) (h : a ++ c = b ++ c) : a = b := by
  rcases a with ⟨la⟩
  rcases b with ⟨lb⟩
  rcases c with ⟨lc⟩
  have hd : la ++ lc = lb ++ lc := congrArg String.data h
  exact congrArg String.mk (List.append_cancel_right hd)

/-! ### Claim theorems -/

/-- Claim C1: `NewsProcessor.validate_articles` returns exactly the
subsequence of input articles, in input order, whose title or description
is present and non-empty (an article is excluded iff both are missing or
empty), and each excluded article at 0-based position `i` contributes the
warning "Article \x7bi+1\x7d: Missing title and description". -/
theorem validate_articles_valid_and_warnings (articles : List Article) :
    (validate_articles articles).1 = articles.filter keepArticle ∧
    ∀ i (h : i < articles.length), keepArticle (articles.get ⟨i, h⟩) = false →
      missingMsg i ∈ (validate_articles articles).2 := by
  constructor
  · exact validateAux_fst 0 articles
  · intro i h hk
    have hmem := validateAux_warning articles 0 i h hk
    simpa using hmem

/-- Witness for C1 at the sample article list: the article at position 1
has no title and an empty description, is excluded, and yields the
"Article 2" warning. -/
theorem validate_articles_valid_and_warnings_witness :
    (validate_articles exArticles).1 = exArticles.filter keepArticle ∧
    missingMsg 1 ∈ (validate_articles exArticles).2 :=
  ⟨(validate_articles_valid_and_warnings exArticles).1,
   (validate_articles_valid_and_warnings exArticles).2 1 (by decide) (by decide)⟩

/-- Claim C6: `format_article_for_display` copies each field from the
article with the fixed default when the field is absent, sets `index` to
the given index, and renders `published_at` as the first 19 characters of
`publishedAt` with "T" replaced by a space. -/
theorem format_article_for_display_spec (article : Article) (index : Nat) :
    (format_article_for_display article index).index = index ∧
    ((article.title = none →
        (format_article_for_display article index).title = "No title available") ∧
      ∀ s, article.title = some s → (format_article_for_display article index).title = s) ∧
    ((article.description = none →
        (format_article_for_display article index).description = "No description available") ∧
      ∀ s, article.description = some s →
        (format_article_for_display article index).description = s) ∧
    ((article.source_name = none →
        (format_article_for_display article index).source = "Unknown Source") ∧
      ∀ s, article.source_name = some s →
        (format_article_for_display article index).source = s) ∧
    ((article.url = none → (format_article_for_display article index).url = "") ∧
      ∀ s, article.url = some s → (format_article_for_display article index).url = s) ∧
    ((article.urlToImage = none →
        (format_article_for_display article index).url_to_image = "") ∧
      ∀ s, article.urlToImage = some s →
        (format_article_for_display article index).url_to_image = s) ∧
    ((article.author = none →
        (format_article_for_display article index).author = "Unknown author") ∧
      ∀ s, article.author = some s →
        (format_article_for_display article index).author = s) ∧
    ∀ s, article.publishedAt = some s →
      (format_article_for_display article index).published_at =
        pyReplaceChar (s.take 19) 'T' ' ' := by
  refine ⟨rfl, ⟨?_, ?_⟩, ⟨?_, ?_⟩, ⟨?_, ?_⟩, ⟨?_, ?_⟩, ⟨?_, ?_⟩, ⟨?_, ?_⟩, ?_⟩ <;>
    first
      | (intro h; simp [format_article_for_display, h])
      | (intro s h; simp [format_article_for_display, h])

/-- Witness for C6: the defaults at the sparse sample article and the
`published_at` rendering at the full sample article. -/
theorem format_article_for_display_spec_witness :
    (format_article_for_display exArticleEmpty 1).title = "No title available" ∧
    (format_article_for_display exArticleFull 0).published_at =
      pyReplaceChar (("2024-03-05T12:00:00Z" : String).take 19) 'T' ' ' :=
  ⟨(format_article_for_display_spec exArticleEmpty 1).2.1.1 rfl,
   (format_article_for_display_spec exArticleFull 0).2.2.2.2.2.2.2
     "2024-03-05T12:00:00Z" rfl⟩

/-- Claim C9: for the empty article list `extract_article_metadata`
returns the empty dict, and in particular not a metadata dict carrying a
`total_articles` (or any other) key. -/
theorem extract_article_metadata_empty :
    extract_article_metadata [] = ExtractResult.result none ∧
    ∀ m : Metadata, extract_article_metadata [] ≠ ExtractResult.result (some m) :=
  ⟨rfl, fun _ h => by simp [extract_article_metadata] at h⟩

/-- Claim C8: whatever page size the caller passes (including `None`,
zero, negative or huge values), the outbound `pageSize` parameter is
clamped to at most 100. -/
theorem fetch_params_pageSize_le_100 (query api_key : String)
    (days_back page_size : Option Int) (sort_by language : Option String)
    (nowDay : Int) :
    (fetch_params query api_key days_back page_size sort_by language nowDay).pageSize ≤ 100 :=
  min_le_right _ _

/-- Claim C7: one invocation of each client issues exactly one outbound
HTTP request — in particular at most one, with no retry after a failure
(the counter is 1 also on the timeout and exception outcomes). -/
theorem single_request_per_invocation (oN : HttpOutcome) (oG : GroqOutcome) :
    (fetch_articles_run oN).2 = 1 ∧ (fetch_articles_run oN).2 ≤ 1 ∧
    (generate_summary_run oG).2 = 1 ∧ (generate_summary_run oG).2 ≤ 1 :=
  ⟨rfl, le_refl 1, rfl, le_refl 1⟩

/- Helper: appending to a string that starts with "Error" keeps the
"Error" start. -/

theorem errorConcat (a m : String) (h : ∃ t, a = "Error" ++ t) :
    ∃ rest, a ++ m = "Error" ++ rest := by
  obtain ⟨t, ht⟩ := h
  exact ⟨t ++ m, by rw [ht, strAppend_assoc]⟩

/-- Claim C3: `fetch_articles` never raises: every outcome of the single
HTTP call yields either the parsed JSON of a 200 response or an error
dict; all three exception kinds and every non-200 status are turned into
error values. -/
theorem fetch_articles_never_raises (o : HttpOutcome) :
    (∃ j text, o = HttpOutcome.success 200 (some j) text ∧
      fetch_articles o = FetchResult.json j) ∨
    (∃ m, fetch_articles o = FetchResult.errorDict m) := by
  cases o with
  | success status body text =>
    by_cases h : status = 200
    · subst h
      cases body with
      | some j =>
        exact Or.inl ⟨j, text, rfl, by simp [fetch_articles, fetch_articles_body]⟩
      | none =>
        exact Or.inr ⟨_, rfl⟩
    · exact Or.inr ⟨"NewsAPI Error: " ++ toString status ++ " - " ++ text,
        by simp [fetch_articles, fetch_articles_body, h]⟩
  | timeout => exact Or.inr ⟨_, rfl⟩
  | reqExc m => exact Or.inr ⟨_, rfl⟩
  | otherExc m => exact Or.inr ⟨_, rfl⟩

/-- Claim C4: `generate_summary` never raises: a 200 response with a
well-formed body yields `result['choices'][0]['message']['content']`, and
every other outcome (non-200 status, timeout, network error, malformed or
empty body) yields a string starting with "Error". -/
theorem generate_summary_never_raises (o : GroqOutcome) :
    (∃ c cs text, o = GroqOutcome.success 200 (some (c :: cs)) text ∧
      generate_summary o = c) ∨
    (∃ rest, generate_summary o = "Error" ++ rest) := by
  cases o with
  | success status choices text =>
    by_cases h : status = 200
    · subst h
      match choices with
      | some (c :: cs) =>
        exact Or.inl ⟨c, cs, text, rfl, by simp [generate_summary, generate_summary_body]⟩
      | some [] =>
        refine Or.inr ?_
        have hg : generate_summary (GroqOutcome.success 200 (some []) text) =
            "Error generating summary: " ++ "list index out of range" := by
          simp [generate_summary, generate_summary_body]
        rw [hg]
        exact errorConcat _ _ ⟨" generating summary: ", by decide⟩
      | none =>
        refine Or.inr ?_
        have hg : generate_summary (GroqOutcome.success 200 none text) =
            "Error generating summary: " ++ "Expecting value: line 1 column 1 (char 0)" := by
          simp [generate_summary, generate_summary_body]
        rw [hg]
        exact errorConcat _ _ ⟨" generating summary: ", by decide⟩
    · refine Or.inr ?_
      have hg : generate_summary (GroqOutcome.success status choices text) =
          (("Error: " ++ toString status) ++ " - ") ++ text := by
        simp [generate_summary, generate_summary_body, h]
      rw [hg]
      exact errorConcat _ _ (errorConcat _ _ (errorConcat _ _ ⟨": ", by decide⟩))
  | timeout =>
    exact Or.inr ⟨": Request timed out. Please try again.", by decide⟩
  | reqExc m =>
    exact Or.inr (errorConcat _ _ ⟨": Network issue - ", by decide⟩)
  | otherExc m =>
    exact Or.inr (errorConcat _ _ ⟨" generating summary: ", by decide⟩)

/-- Claim C2: for every non-empty article list (whose 10-character publish
date prefixes all parse — `strptime` raises otherwise, and the hypothesis
is vacuous when no article has a publish date), `extract_article_metadata`
returns a dict with `total_articles` the input length,
`source_distribution` mapping each occurring source name to its occurrence
count, `unique_sources` the number of distinct source names, and: an empty
`date_range` when no article has a non-empty `publishedAt`, and otherwise
a `date_range` whose `earliest`/`latest` are the minimum/maximum
10-character date strings and whose `span_days` is the day difference
between latest and earliest. -/
theorem extract_article_metadata_spec (articles : List Article)
    (hne : articles ≠ [])
    (hparse : ∀ d ∈ datesOf articles, (parseDate10 d).isSome) :
    ∃ m : Metadata, extract_article_metadata articles = ExtractResult.result (some m) ∧
      m.total_articles = articles.length ∧
      (∀ s, pyGetD m.source_distribution s 0 = (sourcesOf articles).count s) ∧
      (∀ s ∈ sourcesOf articles, (pyGet? m.source_distribution s).isSome) ∧
      m.unique_sources = (sourcesOf articles).toFinset.card ∧
      (datesOf articles = [] → m.date_range = none) ∧
      (datesOf articles ≠ [] →
        ∃ dr : DateRange, m.date_range = some dr ∧
          dr.earliest ∈ datesOf articles ∧
          (∀ d ∈ datesOf articles, dr.earliest ≤ d) ∧
          dr.latest ∈ datesOf articles ∧
          (∀ d ∈ datesOf articles, d ≤ dr.latest) ∧
          ∃ pe pl, parseDate10 dr.earliest = some pe ∧ parseDate10 dr.latest = some pl ∧
            dr.span_days = daysFromCivil pl - daysFromCivil pe) := by
  cases articles with
  | nil => exact absurd rfl hne
  | cons a as =>
    by_cases hd : datesOf (a :: as) = []
    · refine ⟨{ total_articles := (a :: as).length
                unique_sources := (sourcesOf (a :: as)).dedup.length
                source_distribution := buildCounts (sourcesOf (a :: as))
                date_range := none
                sources_list := (sourcesOf (a :: as)).dedup },
        ?_, rfl, ?_, ?_, ?_, fun _ => rfl, fun hne2 => absurd hd hne2⟩
      · simp only [extract_article_metadata]
        rw [hd]
      · intro s
        have hc := pyGetD_countLoop (sourcesOf (a :: as)) [] s
        simpa [buildCounts, pyGetD, pyGet?] using hc
      · intro s hs
        have hc := pyGet?_isSome_countLoop (sourcesOf (a :: as)) [] s
        rw [buildCounts, hc]
        simp only [pyGet?, Option.isSome_none, Bool.false_or]
        exact List.elem_eq_true_of_mem hs
      · exact (List.card_toFinset _).symm
    · obtain ⟨d0, ds, hdt⟩ : ∃ x l, datesOf (a :: as) = x :: l := by
        cases hdt2 : datesOf (a :: as) with
        | nil => exact absurd hdt2 hd
        | cons x l => exact ⟨x, l, rfl⟩
      have hlat_mem : ds.foldl max d0 ∈ datesOf (a :: as) := by
        rw [hdt]; exact foldl_max_mem ds d0
      have hearl_mem : ds.foldl min d0 ∈ datesOf (a :: as) := by
        rw [hdt]; exact foldl_min_mem ds d0
      obtain ⟨pl, hpl⟩ := Option.isSome_iff_exists.1 (hparse _ hlat_mem)
      obtain ⟨pe, hpe⟩ := Option.isSome_iff_exists.1 (hparse _ hearl_mem)
      refine ⟨{ total_articles := (a :: as).length
                unique_sources := (sourcesOf (a :: as)).dedup.length
                source_distribution := buildCounts (sourcesOf (a :: as))
                date_range := some
                  { earliest := ds.foldl min d0
                    latest := ds.foldl max d0
                    span_days := daysFromCivil pl - daysFromCivil pe }
                sources_list := (sourcesOf (a :: as)).dedup },
        ?_, rfl, ?_, ?_, ?_, fun h0 => absurd h0 hd, fun _ => ?_⟩
      · simp only [extract_article_metadata]
        rw [hdt]
        simp only [hpl, hpe]
      · intro s
        have hc := pyGetD_countLoop (sourcesOf (a :: as)) [] s
        simpa [buildCounts, pyGetD, pyGet?] using hc
      · intro s hs
        have hc := pyGet?_isSome_countLoop (sourcesOf (a :: as)) [] s
        rw [buildCounts, hc]
        simp only [pyGet?, Option.isSome_none, Bool.false_or]
        exact List.elem_eq_true_of_mem hs
      · exact (List.card_toFinset _).symm
      · refine ⟨_, rfl, hearl_mem, ?_, hlat_mem, ?_, pe, pl, hpe, hpl, rfl⟩
        · intro d hdm
          rw [hdt] at hdm
          exact foldl_min_le ds d0 d hdm
        · intro d hdm
          rw [hdt] at hdm
          exact foldl_le_max ds d0 d hdm

/-- Witness for C2 at the sample article list (dates 2024-03-05 and
2024-02-28, three sources of which two are distinct). -/
theorem extract_article_metadata_spec_witness :
    ∃ m : Metadata, extract_article_metadata exArticles = ExtractResult.result (some m) ∧
      m.total_articles = exArticles.length ∧
      (∀ s, pyGetD m.source_distribution s 0 = (sourcesOf exArticles).count s) ∧
      (∀ s ∈ sourcesOf exArticles, (pyGet? m.source_distribution s).isSome) ∧
      m.unique_sources = (sourcesOf exArticles).toFinset.card ∧
      (datesOf exArticles = [] → m.date_range = none) ∧
      (datesOf exArticles ≠ [] →
        ∃ dr : DateRange, m.date_range = some dr ∧
          dr.earliest ∈ datesOf exArticles ∧
          (∀ d ∈ datesOf exArticles, dr.earliest ≤ d) ∧
          dr.latest ∈ datesOf exArticles ∧
          (∀ d ∈ datesOf exArticles, d ≤ dr.latest) ∧
          ∃ pe pl, parseDate10 dr.earliest = some pe ∧ parseDate10 dr.latest = some pl ∧
            dr.span_days = daysFromCivil pl - daysFromCivil pe) :=
  extract_article_metadata_spec exArticles (by decide) (by decide)

/-- Counterexample to claim C5 as stated: `create_download_content` and
`create_email_template` interpolate the wall clock read at call time, so
two calls with identical in-memory arguments (summary, query, metadata)
made at different clock readings return different strings. -/
theorem export_formatters_pure_cex :
    create_download_content "sum" "qry" none exEnv1 ≠
      create_download_content "sum" "qry" none exEnv2 ∧
    create_email_template "sum" "qry" none exEnv1 ≠
      create_email_template "sum" "qry" none exEnv2 := by
  constructor
  · intro h
    simp only [create_download_content, sortedDist, pySortedDesc, List.foldl,
      metaTotalDisp, metaUniqueDisp, metaEarliestDisp, metaLatestDisp,
      exEnv1, exEnv2, strAppend_assoc] at h
    have h1 := strCancelLeft _ _ _ h
    have h2 := strCancelRight _ _ _ h1
    exact absurd h2 (by decide)
  · intro h
    simp only [create_email_template, metaTotalDisp, metaUniqueDisp, metaSpanDisp,
      exEnv1, exEnv2, strAppend_assoc] at h
    have h1 := strCancelLeft _ _ _ h
    have h2 := strCancelLeft _ _ _ h1
    have h3 := strCancelLeft _ _ _ h2
    have h4 := strCancelRight _ _ _ h3
    exact absurd h4 (by decide)

/-- Claim C5 as amended: each export formatter is a pure function of its
in-memory arguments together with the current clock reading — under equal
clock readings (and arbitrary other ambient state, e.g. the session
history) identical arguments give identical outputs; the HTML, CSV and
JSON builders do not read the clock at all. -/
theorem export_formatters_clock_determinism
    (summary query : String) (metadata : Option Metadata)
    (articles : List DisplayArticle) (a : AnalysisData) (e₁ e₂ : Env)
    (hts : e₁.nowYmdHms = e₂.nowYmdHms) (htl : e₁.nowLong = e₂.nowLong) :
    create_download_content summary query metadata e₁ =
      create_download_content summary query metadata e₂ ∧
    create_pdf_content summary query metadata articles e₁ =
      create_pdf_content summary query metadata articles e₂ ∧
    create_csv_content articles metadata e₁ = create_csv_content articles metadata e₂ ∧
    create_email_template summary query metadata e₁ =
      create_email_template summary query metadata e₂ ∧
    json_export a e₁ = json_export a e₂ := by
  refine ⟨?_, rfl, rfl, ?_, rfl⟩
  · simp [create_download_content, hts]
  · simp [create_email_template, htl]

/-- Witness for the amended C5: same clock reading, different session
history, identical outputs for all five formatters. -/
theorem export_formatters_clock_determinism_witness :
    create_download_content "sum" "qry" none exEnv1 =
      create_download_content "sum" "qry" none exEnv3 ∧
    create_pdf_content "sum" "qry" none [] exEnv1 =
      create_pdf_content "sum" "qry" none [] exEnv3 ∧
    create_csv_content [] none exEnv1 = create_csv_content [] none exEnv3 ∧
    create_email_template "sum" "qry" none exEnv1 =
      create_email_template "sum" "qry" none exEnv3 ∧
    json_export exAnalysis exEnv1 = json_export exAnalysis exEnv3 :=
  export_formatters_clock_determinism "sum" "qry" none [] exAnalysis exEnv1 exEnv3 rfl rfl

/-- Counterexample to claim C10 as stated: the duplicate filter compares
the raw query, the stored entry holds the stripped query.  Starting from
the valid one-entry history ["foo"], the call with query " foo " leaves
the old entry (since " foo " ≠ "foo") and inserts a new "foo" entry, so
the no-case-duplicate invariant is not preserved. -/
theorem add_to_search_history_cex :
    exHist.length ≤ 20 ∧ caseDistinct exHist ∧
    ¬ caseDistinct (add_to_search_history exHist " foo " 0 exEnv1) := by
  refine ⟨by decide, by unfold caseDistinct; decide, ?_⟩
  intro hp
  unfold caseDistinct at hp
  have h2 : add_to_search_history exHist " foo " 0 exEnv1 =
      [{ query := "foo", timestamp := "2024-01-01 00:00:00", results_count := 0,
         date := "Jan 01, 2024", time := "12:00 AM" },
       { query := "foo", timestamp := "t0", results_count := 0,
         date := "d0", time := "h0" }] := by decide
  rw [h2] at hp
  cases hp with
  | cons h1 h2 =>
    exact h1 { query := "foo", timestamp := "t0", results_count := 0,
               date := "d0", time := "h0" } (List.mem_singleton_self _) rfl

/-- Claim C10 as amended: starting from a history with at most 20 entries
and no case-duplicate queries, `add_to_search_history` keeps the length at
most 20; it preserves case-distinctness whenever the submitted query
carries no surrounding whitespace (`query.strip() == query` — the
duplicate filter compares the unstripped query, so only then is the match
guaranteed); a query that is non-empty after stripping becomes the first
entry; and a blank query leaves the history unchanged. -/
theorem add_to_search_history_invariants (hist : List HistEntry) (query : String)
    (rc : Int) (e : Env) (hlen : hist.length ≤ 20) (hdist : caseDistinct hist) :
    (add_to_search_history hist query rc e).length ≤ 20 ∧
    (pyStrip query = query → caseDistinct (add_to_search_history hist query rc e)) ∧
    (pyStrip query ≠ "" → (add_to_search_history hist query rc e).head? =
      some { query := pyStrip query, timestamp := e.nowYmdHms, results_count := rc,
             date := e.nowDateShort, time := e.nowTimeAmPm }) ∧
    (pyStrip query = "" → add_to_search_history hist query rc e = hist) := by
  by_cases hb : (query == "" || pyStrip query == "") = true
  · have hun : add_to_search_history hist query rc e = hist := by
      simp only [add_to_search_history, hb, if_true]
    have htr : pyStrip query = "" := by
      rcases (show query = "" ∨ pyStrip query = "" by simpa using hb) with hq | hq
      · rw [hq]
        rfl
      · exact hq
    exact ⟨by rw [hun]; exact hlen, fun _ => by rw [hun]; exact hdist,
           fun hne => absurd htr hne, fun _ => hun⟩
  · have hadd : add_to_search_history hist query rc e =
        ({ query := pyStrip query, timestamp := e.nowYmdHms, results_count := rc,
           date := e.nowDateShort, time := e.nowTimeAmPm } ::
          hist.filter (fun h => pyLower h.query != pyLower query)).take 20 := by
      simp only [add_to_search_history]
      rw [if_neg]
      simpa using hb
    have hstr : pyStrip query ≠ "" := by
      intro hq
      exact hb (by simp [hq])
    refine ⟨?_, ?_, ?_, ?_⟩
    · rw [hadd, List.length_take]
      exact min_le_left _ _
    · intro htq
      unfold caseDistinct
      rw [hadd]
      apply List.Pairwise.sublist (List.take_sublist _ _)
      refine List.pairwise_cons.2 ⟨?_, ?_⟩
      · intro b hb2
        rcases List.mem_filter.1 hb2 with ⟨_, hbf⟩
        simp only [htq]
        exact fun hx => (bne_iff_ne.1 hbf) hx.symm
      · exact List.Pairwise.sublist (List.filter_sublist _) hdist
    · intro _
      rw [hadd]
      rfl
    · intro htq
      exact absurd htq hstr

/-- Witness for the amended C10 at the sample history and a clean query. -/
theorem add_to_search_history_invariants_witness :
    (add_to_search_history exHist "bar" 2 exEnv1).length ≤ 20 ∧
    (pyStrip "bar" = "bar" → caseDistinct (add_to_search_history exHist "bar" 2 exEnv1)) ∧
    (pyStrip "bar" ≠ "" → (add_to_search_history exHist "bar" 2 exEnv1).head? =
      some { query := pyStrip "bar", timestamp := exEnv1.nowYmdHms, results_count := 2,
             date := exEnv1.nowDateShort, time := exEnv1.nowTimeAmPm }) ∧
    (pyStrip "bar" = "" → add_to_search_history exHist "bar" 2 exEnv1 = exHist) :=
  add_to_search_history_invariants exHist "bar" 2 exEnv1 (by decide)
    (by unfold caseDistinct; decide)
